import Mathlib

/-!
Verification of the AD9361 transceiver control-plane driver
(ad9361/sw/ad9361.c): calibration polling, the longest-zero-run search,
the clock scaler nodes, the ENSM (enable state machine) force/restore
bracket, the guarded calibration runner, and the RF clock-chain planner.

Numeric register constants and bit masks live in the ad9361.h header,
which is not part of the translated sources; where such a constant is
needed it is modelled from the specification text and marked as such.
The register transport (SPI reads/writes) is an external collaborator
and is modelled as an ideal bus: writes always succeed.
-/

namespace AD9361

/-! ### Error codes (modelled from the spec: POSIX errno values used by the
driver through the missing platform headers). -/

def EINVAL : Int := 22

def ETIMEDOUT : Int := 110

/-! ### Calibration done polling

`ad9361_check_cal_done` polls a register field until it reaches the
expected done state, with `uint32_t timeout = 5000` and a
`do { ... } while (timeout--)` loop.  The poll oracle abstracts
`ad9361_spi_readf`: `poll k` is the field value returned by the k-th
read.  The result is the returned error code paired with the number of
polls performed. -/

def checkCalGo (poll : Nat → Nat) (done : Nat) : Nat → Nat → Int × Nat
  | k, 0 => if poll k = done then (0, k + 1) else (-ETIMEDOUT, k + 1)
  | k, t + 1 => if poll k = done then (0, k + 1) else checkCalGo poll done (k + 1) t

/-- Embedding of `ad9361_check_cal_done`: the C loop performs one poll,
then continues while the post-decremented `timeout` (initially 5000) was
nonzero, so `checkCalGo` is entered with budget 5000. -/
def ad9361_check_cal_done (poll : Nat → Nat) (done : Nat) : Int × Nat :=
  checkCalGo poll done 0 5000

/-- Embedding of `ad9361_run_calibration`: writes the mask to the
calibration control register (a pure bus write on the ideal bus) and then
polls that register for the done state 0. -/
def ad9361_run_calibration (poll : Nat → Nat) (_mask : Nat) : Int × Nat :=
  ad9361_check_cal_done poll 0

theorem checkCalGo_never (poll : Nat → Nat) (done : Nat) :
    ∀ t k, (∀ j, k ≤ j → j ≤ k + t → poll j ≠ done) →
    checkCalGo poll done k t = (-ETIMEDOUT, k + t + 1) := by
  intro t
  induction t with
  | zero =>
    intro k h
    have hk := h k (le_refl k) (by omega)
    simp [checkCalGo, hk]
  | succ t ih =>
    intro k h
    have hk := h k (le_refl k) (by omega)
    have := ih (k + 1) (fun j h1 h2 => h j (by omega) (by omega))
    simp [checkCalGo, hk, this]
    omega

/-! ### Longest run of zeros: `ad9361_find_opt`

The search scans an array of markers, counting the current run of zeros
and keeping the best completed run; ties keep the earlier run because the
update condition is a strict `cnt > max_cnt`.  We embed the array as a
list of naturals and the `start == -1` sentinel as an `Option Nat`. -/

def nth : List Nat → Nat → Option Nat
  | [], _ => none
  | x :: _, 0 => some x
  | _ :: t, k + 1 => nth t k

/-- Length of the leading run of zeros of a list. -/
def runLen : List Nat → Nat
  | [] => 0
  | x :: t => if x = 0 then runLen t + 1 else 0

/-- Length of the run of zeros starting at index `j`. -/
def zrun (l : List Nat) (j : Nat) : Nat := runLen (l.drop j)

/-- Loop body of `ad9361_find_opt`: state is (remaining input, current
index, run start or none, run length, best length, best start). -/
def foAux : List Nat → Nat → Option Nat → Nat → Nat → Nat → Nat × Nat
  | [], _, start, cnt, mc, ms => if mc < cnt then (cnt, start.getD 0) else (mc, ms)
  | x :: r, i, start, cnt, mc, ms =>
      if x = 0 then foAux r (i + 1) (some (start.getD i)) (cnt + 1) mc ms
      else if mc < cnt then foAux r (i + 1) none 0 cnt (start.getD 0)
      else foAux r (i + 1) none 0 mc ms

/-- Embedding of `ad9361_find_opt`, returning (max run length, start
index of that run). -/
def ad9361_find_opt (l : List Nat) : Nat × Nat := foAux l 0 none 0 0 0

theorem nth_drop (l : List Nat) : ∀ i k, nth (l.drop i) k = nth l (i + k) := by
  induction l with
  | nil => intro i k; cases i <;> simp [nth, List.drop]
  | cons x t ih =>
    intro i k
    cases i with
    | zero => simp [List.drop]
    | succ i => simpa [List.drop, nth, Nat.succ_add] using ih i k

theorem drop_cons (l : List Nat) :
    ∀ i x r, l.drop i = x :: r → nth l i = some x ∧ l.drop (i + 1) = r := by
  induction l with
  | nil => intro i x r h; simp [List.drop] at h
  | cons y t ih =>
    intro i x r h
    cases i with
    | zero =>
      simp [List.drop] at h ⊢
      exact ⟨h.1 ▸ rfl, h.2⟩
    | succ i =>
      simp only [List.drop] at h
      have := ih i x r h
      exact ⟨this.1, this.2⟩

theorem drop_nil_nth (l : List Nat) : ∀ i, l.drop i = [] → nth l i = none := by
  induction l with
  | nil => intro i _; cases i <;> simp [nth]
  | cons y t ih =>
    intro i h
    cases i with
    | zero => simp [List.drop] at h
    | succ i => exact ih i h

theorem runLen_zeros (m : List Nat) : ∀ k, k < runLen m → nth m k = some 0 := by
  induction m with
  | nil => intro k h; simp [runLen] at h
  | cons x t ih =>
    intro k h
    by_cases hx : x = 0
    · cases k with
      | zero => simp [nth, hx]
      | succ k =>
        simp only [runLen, hx, if_pos] at h
        exact ih k (by omega)
    · simp [runLen, hx] at h

theorem runLen_stop (m : List Nat) : nth m (runLen m) ≠ some 0 := by
  induction m with
  | nil => simp [runLen, nth]
  | cons x t ih =>
    by_cases hx : x = 0
    · simpa [runLen, hx, nth] using ih
    · simp [runLen, hx, nth, hx]

theorem runLen_le_length (m : List Nat) : runLen m ≤ m.length := by
  induction m with
  | nil => simp [runLen]
  | cons x t ih =>
    by_cases hx : x = 0 <;> simp [runLen, hx] <;> omega

theorem runLen_eq_of (m : List Nat) (c : Nat)
    (h0 : ∀ k, k < c → nth m k = some 0) (h1 : nth m c ≠ some 0) : runLen m = c := by
  rcases Nat.lt_trichotomy (runLen m) c with h | h | h
  · exact absurd (h0 (runLen m) h) (runLen_stop m)
  · exact h
  · exact absurd (runLen_zeros m c h) h1

theorem zrun_zeros (l : List Nat) (j : Nat) :
    ∀ k, k < zrun l j → nth l (j + k) = some 0 := by
  intro k h
  have := runLen_zeros (l.drop j) k h
  rwa [nth_drop] at this

theorem zrun_stop (l : List Nat) (j : Nat) : nth l (j + zrun l j) ≠ some 0 := by
  have := runLen_stop (l.drop j)
  rwa [nth_drop] at this

theorem zrun_eq_of (l : List Nat) (j c : Nat)
    (h0 : ∀ k, k < c → nth l (j + k) = some 0) (h1 : nth l (j + c) ≠ some 0) :
    zrun l j = c := by
  refine runLen_eq_of (l.drop j) c (fun k hk => ?_) ?_
  · rw [nth_drop]; exact h0 k hk
  · rw [nth_drop]; exact h1

theorem zrun_le (l : List Nat) (j : Nat) : j + zrun l j ≤ l.length ∨ zrun l j = 0 := by
  by_cases h : zrun l j = 0
  · exact Or.inr h
  · left
    have h1 : runLen (l.drop j) ≤ (l.drop j).length := runLen_le_length _
    have h2 : (l.drop j).length = l.length - j := List.length_drop j l
    have h3 : j ≤ l.length := by
      by_contra hc
      have : l.drop j = [] := List.drop_eq_nil_of_le (by omega)
      simp [zrun, this, runLen] at h
    simp only [zrun] at h ⊢
    omega

/-- If the zeros starting at `j` reach at least up to `i`, then `j` cannot
lie strictly before the head of the current run ending at `i`. -/
theorem head_lower_bound (l : List Nat) (i cnt j : Nat)
    (H6 : i - cnt = 0 ∨ nth l (i - cnt - 1) ≠ some 0)
    (hz : ∀ k, j ≤ k → k < i → nth l k = some 0) (hji : j ≤ i) :
    i - cnt ≤ j := by
  by_contra hc
  push_neg at hc
  have h0 : i - cnt ≠ 0 := by omega
  rcases H6 with h | h
  · exact h0 h
  · exact h (hz (i - cnt - 1) (by omega) (by omega))

theorem zeros_on_interval (l : List Nat) (j i : Nat) (h : i ≤ j + zrun l j) :
    ∀ k, j ≤ k → k < i → nth l k = some 0 := by
  intro k h1 h2
  have := zrun_zeros l j (k - j) (by omega)
  have hk : j + (k - j) = k := by omega
  rwa [hk] at this

/-- Main loop invariant of `ad9361_find_opt`: processing the suffix
`l.drop i` with a state describing the open run `[i - cnt, i)` and the
best completed run `(mc, ms)` yields the global optimum with
earliest-index tie-breaking. -/
theorem foAux_spec (l : List Nat) :
    ∀ (r : List Nat) (i : Nat) (start : Option Nat) (cnt mc ms : Nat),
    r = l.drop i →
    cnt ≤ i →
    (∀ k, i - cnt ≤ k → k < i → nth l k = some 0) →
    (cnt = 0 → start = none) →
    (0 < cnt → start = some (i - cnt)) →
    (i - cnt = 0 ∨ nth l (i - cnt - 1) ≠ some 0) →
    (∀ j, j + zrun l j < i → zrun l j ≤ mc) →
    (0 < mc → zrun l ms = mc ∧ ms + mc < i ∧ ∀ j, j < ms → zrun l j < mc) →
    (∀ j, zrun l j ≤ (foAux r i start cnt mc ms).1) ∧
    ((foAux r i start cnt mc ms).1 ≠ 0 →
      zrun l (foAux r i start cnt mc ms).2 = (foAux r i start cnt mc ms).1 ∧
      ∀ j, j < (foAux r i start cnt mc ms).2 →
        zrun l j < (foAux r i start cnt mc ms).1) := by
  intro r
  induction r with
  | nil =>
    intro i start cnt mc ms H1 H2 H3 H4 H5 H6 H7 H8
    have hlen : l.length ≤ i := by
      by_contra hc
      push_neg at hc
      have : l.drop i ≠ [] := by
        intro hd
        have := List.length_drop i l
        rw [hd] at this
        simp at this
        omega
      exact this H1.symm
    have hStopI : ∀ s, l.length ≤ s → nth l s = none := by
      intro s hs
      exact drop_nil_nth l s (List.drop_eq_nil_of_le hs)
    -- every run either completed before i or is the open trailing run
    have hAll : ∀ j, zrun l j ≤ mc ∨ zrun l j ≤ cnt := by
      intro j
      by_cases hz : zrun l j = 0
      · right; omega
      · rcases zrun_le l j with hle | hle
        · by_cases hfold : j + zrun l j < i
          · exact Or.inl (H7 j hfold)
          · right
            have hji : j + zrun l j = i ∧ i = l.length := by omega
            have hj : j ≤ i := by omega
            have hz0 : ∀ k, j ≤ k → k < i → nth l k = some 0 :=
              zeros_on_interval l j i (by omega)
            have hlow := head_lower_bound l i cnt j H6 hz0 hj
            omega
        · exact absurd hle hz
    by_cases hcase : mc < cnt
    · -- trailing run is the new best
      have hcnt : 0 < cnt := by omega
      have hs : start = some (i - cnt) := H5 hcnt
      have hres : foAux [] i start cnt mc ms = (cnt, i - cnt) := by
        simp [foAux, hcase, hs]
      constructor
      · intro j
        rw [hres]
        rcases hAll j with h | h <;> omega
      · intro hne
        rw [hres] at hne ⊢
        have hrun : zrun l (i - cnt) = cnt := by
          refine zrun_eq_of l (i - cnt) cnt (fun k hk => ?_) ?_
          · exact H3 (i - cnt + k) (by omega) (by omega)
          · have : i - cnt + cnt = i := by omega
            rw [this]
            simp [hStopI i hlen]
        refine ⟨hrun, fun j hj => ?_⟩
        by_cases hfold : j + zrun l j < i
        · have := H7 j hfold; omega
        · by_cases hz : zrun l j = 0
          · omega
          · rcases zrun_le l j with hle | hle
            · have hz0 : ∀ k, j ≤ k → k < i → nth l k = some 0 :=
                zeros_on_interval l j i (by omega)
              have hlow := head_lower_bound l i cnt j H6 hz0 (by omega)
              omega
            · exact absurd hle hz
    · -- the previously completed best stays
      have hres : foAux [] i start cnt mc ms = (mc, ms) := by
        simp [foAux, hcase]
      constructor
      · intro j
        rw [hres]
        rcases hAll j with h | h <;> omega
      · intro hne
        rw [hres] at hne ⊢
        have hmc : 0 < mc := by
          simp only [ne_eq] at hne
          omega
        exact ⟨(H8 hmc).1, (H8 hmc).2.2⟩
  | cons x rt ih =>
    intro i start cnt mc ms H1 H2 H3 H4 H5 H6 H7 H8
    have hdc := drop_cons l i x rt H1.symm
    have hxi : nth l i = some x := hdc.1
    have hrt : rt = l.drop (i + 1) := hdc.2.symm
    by_cases hx : x = 0
    · -- extend the current run
      have hstep : foAux (x :: rt) i start cnt mc ms =
          foAux rt (i + 1) (some (start.getD i)) (cnt + 1) mc ms := by
        simp [foAux, hx]
      have hgetD : start.getD i = i - cnt := by
        by_cases hc : cnt = 0
        · simp [H4 hc, hc]
        · simp [H5 (by omega)]
      rw [hstep, hgetD]
      refine ih (i + 1) (some (i - cnt)) (cnt + 1) mc ms hrt (by omega) ?_ (by omega)
        (fun _ => by
          have : i + 1 - (cnt + 1) = i - cnt := by omega
          rw [this]) ?_ ?_ ?_
      · intro k hk1 hk2
        have hik : i + 1 - (cnt + 1) = i - cnt := by omega
        rw [hik] at hk1
        by_cases hki : k < i
        · exact H3 k hk1 hki
        · have : k = i := by omega
          rw [this, hxi, hx]
      · have hik : i + 1 - (cnt + 1) = i - cnt := by omega
        rw [hik]
        exact H6
      · intro j hj
        by_cases hji : j + zrun l j < i
        · exact H7 j hji
        · have hji2 : j + zrun l j = i := by omega
          have := zrun_stop l j
          rw [hji2, hxi, hx] at this
          simp at this
      · intro hmc
        obtain ⟨a, b, c⟩ := H8 hmc
        exact ⟨a, by omega, c⟩
    · -- the run (if any) is terminated by a nonzero marker
      have hstopper : nth l i ≠ some 0 := by
        rw [hxi]
        intro hcon
        exact hx (by injection hcon)
      have hnewbound : ∀ j, j + zrun l j < i + 1 → zrun l j ≤ cnt ⊔ mc := by
        intro j hj
        by_cases hji : j + zrun l j < i
        · have := H7 j hji
          exact le_trans this (le_max_right _ _)
        · have hji2 : j + zrun l j = i := by omega
          have hz0 : ∀ k, j ≤ k → k < i → nth l k = some 0 :=
            zeros_on_interval l j i (by omega)
          have hlow := head_lower_bound l i cnt j H6 hz0 (by omega)
          have : zrun l j ≤ cnt := by omega
          exact le_trans this (le_max_left _ _)
      by_cases hcase : mc < cnt
      · -- fold the current run into a strictly better best
        have hcnt : 0 < cnt := by omega
        have hs : start = some (i - cnt) := H5 hcnt
        have hstep : foAux (x :: rt) i start cnt mc ms =
            foAux rt (i + 1) none 0 cnt (i - cnt) := by
          simp [foAux, hx, hcase, hs]
        rw [hstep]
        have hrun : zrun l (i - cnt) = cnt := by
          refine zrun_eq_of l (i - cnt) cnt (fun k hk => ?_) ?_
          · exact H3 (i - cnt + k) (by omega) (by omega)
          · have : i - cnt + cnt = i := by omega
            rw [this]
            exact hstopper
        refine ih (i + 1) none 0 cnt (i - cnt) hrt (by omega)
          (fun k hk1 hk2 => by omega) (fun _ => rfl) (fun hcon => by omega) ?_ ?_ ?_
        · right
          have : i + 1 - 0 - 1 = i := by omega
          rw [this]
          exact hstopper
        · intro j hj
          have := hnewbound j hj
          omega
        · intro _
          refine ⟨hrun, by omega, fun j hj => ?_⟩
          by_cases hfold : j + zrun l j < i
          · have := H7 j hfold; omega
          · by_cases hz : zrun l j = 0
            · omega
            · have hz0 : ∀ k, j ≤ k → k < i → nth l k = some 0 :=
                zeros_on_interval l j i (by omega)
              have hlow := head_lower_bound l i cnt j H6 hz0 (by omega)
              omega
      · -- the old best stays
        have hstep : foAux (x :: rt) i start cnt mc ms =
            foAux rt (i + 1) none 0 mc ms := by
          simp [foAux, hx, hcase]
        rw [hstep]
        refine ih (i + 1) none 0 mc ms hrt (by omega)
          (fun k hk1 hk2 => by omega) (fun _ => rfl) (fun hcon => by omega) ?_ ?_ ?_
        · right
          have : i + 1 - 0 - 1 = i := by omega
          rw [this]
          exact hstopper
        · intro j hj
          have := hnewbound j hj
          omega
        · intro hmc
          obtain ⟨a, b, c⟩ := H8 hmc
          exact ⟨a, by omega, c⟩

/-- Claim C9: `ad9361_find_opt` on the 10-entry array
1,1,0,0,0,1,1,1,0,0 returns run length 3 starting at index 2, and on
every input the returned length bounds every zero run while the returned
start is the earliest index achieving that maximal length. -/
theorem find_opt_correct :
    ad9361_find_opt [1, 1, 0, 0, 0, 1, 1, 1, 0, 0] = (3, 2) ∧
    ∀ (l : List Nat),
      (∀ j, zrun l j ≤ (ad9361_find_opt l).1) ∧
      ((ad9361_find_opt l).1 ≠ 0 →
        zrun l (ad9361_find_opt l).2 = (ad9361_find_opt l).1 ∧
        ∀ j, j < (ad9361_find_opt l).2 →
          zrun l j < (ad9361_find_opt l).1) := by
  constructor
  · decide
  · intro l
    have h := foAux_spec l l 0 none 0 0 0 (by simp) (by omega)
      (fun k hk1 hk2 => by omega) (fun _ => rfl) (fun hcon => by omega)
      (Or.inl rfl) (fun j hj => by omega) (fun hcon => by omega)
    exact h

/-- Claim C9 witness: the general part instantiated on the concrete array
from the spec, discharging the nonzero-length hypothesis there. -/
theorem find_opt_correct_witness :
    zrun [1, 1, 0, 0, 0, 1, 1, 1, 0, 0] 8 ≤ 3 ∧
    zrun [1, 1, 0, 0, 0, 1, 1, 1, 0, 0] 2 = 3 ∧
    ∀ j, j < 2 → zrun [1, 1, 0, 0, 0, 1, 1, 1, 0, 0] j < 3 := by
  have h := find_opt_correct
  have hv : ad9361_find_opt [1, 1, 0, 0, 0, 1, 1, 1, 0, 0] = (3, 2) := h.1
  have hg := (h.2 [1, 1, 0, 0, 0, 1, 1, 1, 0, 0])
  have h1 := hg.1 8
  have h2 := hg.2 (by rw [hv]; decide)
  rw [hv] at h1 h2
  exact ⟨h1, h2.1, h2.2⟩

/-- Claim C5 (amended): when the polled field never reaches the expected
done state, `ad9361_check_cal_done` returns the timeout error after
exactly 5001 polls (the initial poll plus the budget of 5000 retries of
the do/while loop), not earlier and not later; hence
`ad9361_run_calibration` whose done bit never clears does the same. -/
theorem check_cal_done_timeout (poll : Nat → Nat) (done mask : Nat)
    (h : ∀ j, j ≤ 5000 → poll j ≠ done) :
    ad9361_check_cal_done poll done = (-ETIMEDOUT, 5001) ∧
    (done = 0 → ad9361_run_calibration poll mask = (-ETIMEDOUT, 5001)) := by
  have hc : ad9361_check_cal_done poll done = (-ETIMEDOUT, 5001) := by
    have := checkCalGo_never poll done 5000 0 (fun j h1 h2 => h j (by omega))
    simpa [ad9361_check_cal_done] using this
  refine ⟨hc, fun hd => ?_⟩
  rw [ad9361_run_calibration, ← hd, hc]

/-- Claim C5 witness: a poll oracle that always reads 1 while the done
state is 0. -/
theorem check_cal_done_timeout_witness :
    ad9361_check_cal_done (fun _ => 1) 0 = (-ETIMEDOUT, 5001) ∧
    ad9361_run_calibration (fun _ => 1) 77 = (-ETIMEDOUT, 5001) := by
  have h := check_cal_done_timeout (fun _ => 1) 0 77 (fun j _ => Nat.one_ne_zero)
  exact ⟨h.1, h.2 rfl⟩

/-- Claim C5 counterexample: the claim as stated says the timeout is
returned after exactly 5000 polling iterations, but the do/while loop
with a post-decremented budget of 5000 performs 5001 polls before
returning the timeout error. -/
theorem check_cal_done_count_counterexample :
    (ad9361_check_cal_done (fun _ => 1) 0).2 = 5001 ∧ (5001 : Nat) ≠ 5000 := by
  have := checkCalGo_never (fun _ => 1) 0 5000 0 (fun j _ _ => Nat.one_ne_zero)
  constructor
  · simp [ad9361_check_cal_done, this]
  · decide

/-! ### Simple scaler clock nodes

`ad9361_clk_factor_round_rate` and `ad9361_clk_factor_set_rate` compute
the same multiplier/divisor pair with `DIV_ROUND_CLOSEST` (the rounding
division macro from the missing util.h, modelled from the spec wording
multiplier = round(desired/parent)); `ad9361_set_clk_scaler` validates
the pair and commits a register field encoding it, and
`ad9361_clk_factor_recalc_rate` re-reads that field through
`ad9361_get_clk_scaler` before recomputing parent * mult / div.  The
encode and decode are embedded separately because they are not inverse
on every accepted pair: the REFCLK encoder masks the pair with 0xF, the
ADC encoder takes a base-2 log of a possibly non-power-of-two divisor,
and the sample-clock commit writes the bypass code 0 when the FIR is
bypassed. -/

inductive ClkSource where
  | BB_REFCLK | RX_REFCLK | TX_REFCLK
  | ADC_CLK | R2_CLK | R1_CLK | CLKRF_CLK | RX_SAMPL_CLK
  | DAC_CLK | T2_CLK | T1_CLK | CLKTF_CLK | TX_SAMPL_CLK
deriving DecidableEq

/-- Modelled from the spec: rounding division macro from the missing
util.h header, round(x/y) computed as (x + y/2)/y. -/
def DIV_ROUND_CLOSEST (x y : Nat) : Nat := (x + y / 2) / y

/-- Modelled from the spec: integer base-2 logarithm from the missing
util.h header. -/
def ilog2 (n : Nat) : Nat := Nat.log2 n

/-- Embedding of `ad9361_to_refclk_scaler`: the switch matches
((mult & 0xF) << 4) | (div & 0xF), so the multiplier and divisor are
masked with 0xF before matching and aliased pairs are accepted. -/
def ad9361_to_refclk_scaler (mult div : Nat) : Option Nat :=
  if mult % 16 = 1 ∧ div % 16 = 1 then some 0
  else if mult % 16 = 1 ∧ div % 16 = 2 then some 1
  else if mult % 16 = 1 ∧ div % 16 = 4 then some 2
  else if mult % 16 = 2 ∧ div % 16 = 1 then some 3
  else none

/-- Embedding of `ad9361_set_clk_scaler`: validates the pair for the
node kind and returns the register field value it commits (with
set = true) or would commit (set = false, identical validation).  The
`bypass` flag is the bypass_rx_fir/bypass_tx_fir flag of the phy for the
two sample clocks; `ADC_CLK` casts the divisor to uint8 before taking
its log. -/
def ad9361_set_clk_scaler (s : ClkSource) (bypass : Bool) (mult div : Nat) :
    Option Nat :=
  match s with
  | .BB_REFCLK | .RX_REFCLK | .TX_REFCLK => ad9361_to_refclk_scaler mult div
  | .ADC_CLK =>
      let t := ilog2 (div % 256)
      if mult ≠ 1 ∨ 6 < t ∨ t < 1 then none else some t
  | .R2_CLK | .T2_CLK =>
      if mult ≠ 1 ∨ 3 < div ∨ div < 1 then none else some (div - 1)
  | .R1_CLK | .CLKRF_CLK | .DAC_CLK | .T1_CLK | .CLKTF_CLK =>
      if mult ≠ 1 ∨ 2 < div ∨ div < 1 then none else some (div - 1)
  | .RX_SAMPL_CLK | .TX_SAMPL_CLK =>
      if mult ≠ 1 ∨ 4 < div ∨ div < 1 ∨ div = 3 then none
      else some (if bypass then 0 else ilog2 div + 1)

/-- Embedding of `ad9361_get_clk_scaler`: decodes the committed register
field back to a multiplier/divisor pair.  The REFCLK default arm is
-EINVAL in the C and unreachable for a committed field (0..3); it is
modelled as the identity scaler. -/
def ad9361_get_clk_scaler (s : ClkSource) (reg : Nat) : Nat × Nat :=
  match s with
  | .BB_REFCLK | .RX_REFCLK | .TX_REFCLK =>
      if reg = 0 then (1, 1) else if reg = 1 then (1, 2)
      else if reg = 2 then (1, 4) else if reg = 3 then (2, 1)
      else (1, 1)
  | .ADC_CLK => (1, 2 ^ (reg % 8))
  | .R2_CLK | .T2_CLK | .R1_CLK | .CLKRF_CLK | .DAC_CLK | .T1_CLK | .CLKTF_CLK =>
      (1, reg + 1)
  | .RX_SAMPL_CLK | .TX_SAMPL_CLK =>
      if reg = 0 then (1, 1) else (1, 2 ^ (reg - 1))

/-- Shared factor computation of `ad9361_clk_factor_round_rate` and
`ad9361_clk_factor_set_rate`: mult = round(rate/parent), div = 1 when
rate ≥ parent, else mult = 1, div = round(parent/rate) with the
divide-by-zero guard clamping div to 1. -/
def computeFactors (rate prate : Nat) : Nat × Nat :=
  if prate ≤ rate then (DIV_ROUND_CLOSEST rate prate, 1)
  else
    let d := DIV_ROUND_CLOSEST prate rate
    (1, if d = 0 then 1 else d)

/-- Embedding of `ad9361_clk_factor_round_rate`: computes the factors,
validates them (`ad9361_set_clk_scaler` with set = false) and returns
the achievable rate (parent / div) * mult together with the pair stored
in the struct; an illegal pair yields the error (none). -/
def ad9361_clk_factor_round_rate (s : ClkSource) (bypass : Bool) (rate prate : Nat) :
    Option (Nat × Nat × Nat) :=
  match ad9361_set_clk_scaler s bypass (computeFactors rate prate).1
      (computeFactors rate prate).2 with
  | some _ => some ((computeFactors rate prate).1, (computeFactors rate prate).2,
      prate / (computeFactors rate prate).2 * (computeFactors rate prate).1)
  | none => none

/-- Embedding of `ad9361_clk_factor_set_rate`: same factors, committed
to hardware (`ad9361_set_clk_scaler` with set = true); the result is the
committed register field. -/
def ad9361_clk_factor_set_rate (s : ClkSource) (bypass : Bool) (rate prate : Nat) :
    Option Nat :=
  ad9361_set_clk_scaler s bypass (computeFactors rate prate).1
    (computeFactors rate prate).2

/-- Embedding of `ad9361_clk_factor_recalc_rate`: re-reads the committed
register field through `ad9361_get_clk_scaler` and recomputes
parent * mult / div from the read-back pair. -/
def ad9361_clk_factor_recalc_rate (s : ClkSource) (reg prate : Nat) : Nat :=
  let md := ad9361_get_clk_scaler s reg
  prate * md.1 / md.2

/-- Claim C7 (amended): for every simple scaler node and nonzero
requested and parent rates, when `round_rate` succeeds, `set_rate` on
the same request commits a register field, and whenever that field
decodes back to the computed multiplier/divisor pair (no hardware
aliasing: a REFCLK pair from the unmasked legal set, a power-of-two ADC
divisor below 256, and for the sample clocks a divisor the FIR-bypass
readback preserves), the rate recomputed from the read-back pair equals
the value `round_rate` returned: no re-rounding. -/
theorem clk_factor_round_then_set (s : ClkSource) (bypass : Bool)
    (rate prate m d v : Nat) (hr : 0 < rate) (hp : 0 < prate)
    (h : ad9361_clk_factor_round_rate s bypass rate prate = some (m, d, v)) :
    ∃ reg, ad9361_clk_factor_set_rate s bypass rate prate = some reg ∧
      (ad9361_get_clk_scaler s reg = (m, d) →
        ad9361_clk_factor_recalc_rate s reg prate = v) := by
  unfold ad9361_clk_factor_round_rate at h
  rcases henc : ad9361_set_clk_scaler s bypass (computeFactors rate prate).1
      (computeFactors rate prate).2 with _ | reg <;> rw [henc] at h
  · exact absurd h (by simp)
  · simp only [Option.some.injEq, Prod.mk.injEq] at h
    obtain ⟨hm, hd, hv⟩ := h
    refine ⟨reg, henc, ?_⟩
    intro hdec
    unfold ad9361_clk_factor_recalc_rate
    rw [hdec, ← hv, ← hm, ← hd]
    unfold computeFactors
    by_cases hc : prate ≤ rate
    · simp [hc, Nat.div_one]
    · simp [hc]

/-- Claim C7 witness: the R2 decimation stage at parent 100 and request
50 rounds to divisor 2, commits field 1, and the read-back pair
recomputes to exactly the predicted 50. -/
theorem clk_factor_round_then_set_witness :
    ad9361_clk_factor_set_rate ClkSource.R2_CLK false 50 100 = some 1 ∧
    ad9361_clk_factor_recalc_rate ClkSource.R2_CLK 1 100 = 50 := by
  obtain ⟨reg, hs, hrec⟩ := clk_factor_round_then_set ClkSource.R2_CLK false
    50 100 1 2 50 (by decide) (by decide) (by decide)
  have hreg : reg = 1 := by
    have h1 : some reg = some 1 :=
      hs.symm.trans (by decide :
        ad9361_clk_factor_set_rate ClkSource.R2_CLK false 50 100 = some 1)
    injection h1
  subst hreg
  exact ⟨hs, hrec (by decide)⟩

/-- Claim C7 counterexample: for the baseband reference scaler at parent
1 MHz and requested 17 MHz, round_rate computes multiplier 17 and
returns 17 MHz, yet the masked encoder commits the x1 scaler code, whose
readback recomputes to 1 MHz: the committed rate is not the rate
round_rate returned. -/
theorem clk_factor_round_then_set_counterexample :
    ad9361_clk_factor_round_rate ClkSource.BB_REFCLK false 17000000 1000000 =
      some (17, 1, 17000000) ∧
    ad9361_clk_factor_set_rate ClkSource.BB_REFCLK false 17000000 1000000 = some 0 ∧
    ad9361_clk_factor_recalc_rate ClkSource.BB_REFCLK 0 1000000 = 1000000 ∧
    (1000000 : Nat) ≠ 17000000 := by
  refine ⟨by decide, by decide, by decide, by decide⟩


/-! ### ENSM controller and the guarded calibration bracket

The ENSM states and the REG_ENSM_CONFIG_1 bit masks are defined in the
missing ad9361.h header; the state codes below are modelled from the
spec (nine states plus the sleep pseudo-state and the invalid snapshot
sentinel), with SLEEP_WAIT = 0 so that the `if (dev_ensm_state)` test in
`ad9361_ensm_force_state` behaves as in the C.  The configuration
register is modelled as a record of its named bits; the reaction of the
hardware state machine to a configuration write is external to the
driver and is modelled from the spec (forced TX/RX bits select TX, RX or
FDD, the forced-alert bit selects ALERT, otherwise the state holds). -/

def ENSM_STATE_SLEEP_WAIT : Nat := 0
def ENSM_STATE_ALERT : Nat := 5
def ENSM_STATE_TX : Nat := 6
def ENSM_STATE_TX_FLUSH : Nat := 7
def ENSM_STATE_RX : Nat := 8
def ENSM_STATE_RX_FLUSH : Nat := 9
def ENSM_STATE_FDD : Nat := 10
def ENSM_STATE_FDD_FLUSH : Nat := 11
def ENSM_STATE_SLEEP : Nat := 128
def ENSM_STATE_INVALID : Nat := 255

/-- Calibration-select masks from the missing header (modelled: the
values only need to be distinct). -/
def TX_QUAD_CAL : Nat := 16
def RFDC_CAL : Nat := 4

/-- REG_ENSM_CONFIG_1 as a record of its named bits. -/
structure EnsmConfig where
  pinCtl : Bool
  levelMode : Bool
  forceAlert : Bool
  toAlert : Bool
  forceTx : Bool
  forceRx : Bool
  rxDataPortForCal : Bool
deriving DecidableEq

/-- The all-zero configuration byte. -/
def cfgZero : EnsmConfig :=
  ⟨false, false, false, false, false, false, false⟩

/-- The TO_ALERT | FORCE_ALERT_STATE bracket value written before every
forced or restored state. -/
def cfgBracket : EnsmConfig :=
  ⟨false, false, true, true, false, false, false⟩

/-- Modelled from the spec: reaction of the hardware enable state
machine to a configuration write (spec section 4.3 encoding: forced
TX and RX together select FDD, forced TX selects TX, forced RX selects
RX, the forced-alert bit selects ALERT, otherwise the state holds). -/
def ensmApply (c : EnsmConfig) (st : Nat) : Nat :=
  if c.forceTx && c.forceRx then ENSM_STATE_FDD
  else if c.forceTx then ENSM_STATE_TX
  else if c.forceRx then ENSM_STATE_RX
  else if c.forceAlert then ENSM_STATE_ALERT
  else st

/-- Driver-visible software state (fields of struct ad9361_rf_phy). -/
structure PhyState where
  curr_ensm_state : Nat
  prev_ensm_state : Nat
  ensm_pin_ctl_en : Bool
  fdd : Bool
  rx2tx2 : Bool
  ensm_pin_pulse_mode : Bool
  txmon_tdd_en : Bool
  bbdc_track_en : Bool
  rfdc_track_en : Bool
  quad_track_en : Bool
deriving DecidableEq

/-- Hardware mirror: ENSM state readback, the configuration register, a
count of writes to REG_ENSM_CONFIG_1, the clock-enable register and the
tracking-loop enables as last written by `ad9361_tracking_control`. -/
structure HwState where
  state : Nat
  cfg : EnsmConfig
  cfgWrites : Nat
  clocksOn : Bool
  trackBB : Bool
  trackRF : Bool
  trackQ1 : Bool
  trackQ2 : Bool
deriving DecidableEq

structure Dev where
  phy : PhyState
  hw : HwState
deriving DecidableEq

/-- A write to REG_ENSM_CONFIG_1: the register takes the value and the
state machine reacts. -/
def writeEnsmConfig (hw : HwState) (c : EnsmConfig) : HwState :=
  { hw with cfg := c, state := ensmApply c hw.state, cfgWrites := hw.cfgWrites + 1 }

/-- Embedding of `ad9361_tracking_control`: records the tracking enables
(channel 2 quadrature tracking only in dual-channel mode) and returns 0;
the C function discards the SPI write results and always returns 0. -/
def ad9361_tracking_control (d : Dev) (bbdc_track rfdc_track rxquad_track : Bool) :
    Int × Dev :=
  (0, { d with hw := { d.hw with
          trackBB := bbdc_track,
          trackRF := rfdc_track,
          trackQ1 := rxquad_track,
          trackQ2 := rxquad_track && d.phy.rx2tx2 } })

/-- Embedding of `ad9361_ensm_force_state`: snapshots the readback state,
no-ops when already there, otherwise disables pin control (remembering
whether it was on), drops TO_ALERT when the readback state is nonzero,
applies the target bits and writes the bracket then the value. -/
def ad9361_ensm_force_state (d : Dev) (target : Nat) : Dev :=
  let devState := d.hw.state
  let phy1 := { d.phy with prev_ensm_state := devState }
  if devState = target then { d with phy := phy1 }
  else
    let val0 := d.hw.cfg
    let pinWasOn := val0.pinCtl
    let val1 := { val0 with pinCtl := false }
    let phy2 := { phy1 with ensm_pin_ctl_en := pinWasOn }
    let val2 := if devState ≠ 0 then { val1 with toAlert := false } else val1
    if target = ENSM_STATE_TX then
      let val3 := { val2 with forceTx := true }
      { phy := phy2, hw := writeEnsmConfig (writeEnsmConfig d.hw cfgBracket) val3 }
    else if target = ENSM_STATE_RX then
      let val3 := { val2 with forceRx := true }
      { phy := phy2, hw := writeEnsmConfig (writeEnsmConfig d.hw cfgBracket) val3 }
    else if target = ENSM_STATE_FDD then
      let val3 := { val2 with forceTx := true, forceRx := true }
      { phy := phy2, hw := writeEnsmConfig (writeEnsmConfig d.hw cfgBracket) val3 }
    else if target = ENSM_STATE_ALERT then
      let val3 := { val2 with forceTx := false, forceRx := false,
                              toAlert := true, forceAlert := true }
      { phy := phy2, hw := writeEnsmConfig (writeEnsmConfig d.hw cfgBracket) val3 }
    else
      { d with phy := phy2 }

/-- Embedding of `ad9361_ensm_restore_prev_state`: clears the force and
alert bits of the read-back configuration, re-applies the bits of the
snapshotted state, writes the bracket then the value, and re-enables pin
control when it had been on; an invalid or unhandled snapshot restores
nothing. -/
def ad9361_ensm_restore_prev_state (d : Dev) : Dev :=
  let val0 := d.hw.cfg
  let val1 := { val0 with forceTx := false, forceRx := false,
                          toAlert := false, forceAlert := false }
  let prev := d.phy.prev_ensm_state
  let commit := fun (v : EnsmConfig) =>
    let hw2 := writeEnsmConfig (writeEnsmConfig d.hw cfgBracket) v
    let hw3 := if d.phy.ensm_pin_ctl_en then writeEnsmConfig hw2 { v with pinCtl := true }
               else hw2
    { d with hw := hw3 }
  if prev = ENSM_STATE_TX then commit { val1 with forceTx := true }
  else if prev = ENSM_STATE_RX then commit { val1 with forceRx := true }
  else if prev = ENSM_STATE_FDD then commit { val1 with forceTx := true, forceRx := true }
  else if prev = ENSM_STATE_ALERT then commit { val1 with toAlert := true }
  else d

/-- Embedding of `ad9361_do_calib_run`: the guarded calibration bracket.
The two dispatched calibration procedures (quadrature and RF DC) touch
neither the ENSM snapshot nor the tracking configuration and are
abstracted by their return code `calRet`; an unknown calibration kind
yields -EINVAL.  The C code then reassigns `ret` from the tracking
re-enable before returning, which is why the returned code is the
tracking-control result. -/
def ad9361_do_calib_run (d : Dev) (cal : Nat) (calRet : Int) : Int × Dev :=
  let r1 := ad9361_tracking_control d false false false
  if r1.1 < 0 then r1
  else
    let d2 := ad9361_ensm_force_state r1.2 ENSM_STATE_ALERT
    let _retCal : Int := if cal = TX_QUAD_CAL ∨ cal = RFDC_CAL then calRet else -EINVAL
    let r2 := ad9361_tracking_control d2 d2.phy.bbdc_track_en d2.phy.rfdc_track_en
                d2.phy.quad_track_en
    let d4 := ad9361_ensm_restore_prev_state r2.2
    (r2.1, d4)

/-- Embedding of `ad9361_ensm_set_state`: the wake-up preamble when the
recorded state is SLEEP, the legality checks per target, the single
configuration write on success, and the recorded-state update.  The
manual-gain pulse writes touch a different register and are omitted. -/
def ad9361_ensm_set_state (d : Dev) (target : Nat) (pinctrl : Bool) : Int × Dev :=
  let d0 :=
    if d.phy.curr_ensm_state = ENSM_STATE_SLEEP then
      { d with hw := writeEnsmConfig { d.hw with clocksOn := true } cfgBracket }
    else d
  let val : EnsmConfig :=
    { pinCtl := pinctrl,
      levelMode := !d.phy.ensm_pin_pulse_mode,
      forceAlert := false,
      toAlert := true,
      forceTx := false,
      forceRx := false,
      rxDataPortForCal := d.phy.txmon_tdd_en }
  if target = ENSM_STATE_TX then
    let val := { val with forceTx := true }
    let rc : Int := if d.phy.fdd then -EINVAL
      else if d.phy.curr_ensm_state = ENSM_STATE_ALERT then 0 else -EINVAL
    if rc ≠ 0 then (rc, d0)
    else (0, { d0 with hw := writeEnsmConfig d0.hw val,
                       phy := { d0.phy with curr_ensm_state := target } })
  else if target = ENSM_STATE_RX then
    let val := { val with forceRx := true }
    let rc : Int := if d.phy.fdd then -EINVAL
      else if d.phy.curr_ensm_state = ENSM_STATE_ALERT then 0 else -EINVAL
    if rc ≠ 0 then (rc, d0)
    else (0, { d0 with hw := writeEnsmConfig d0.hw val,
                       phy := { d0.phy with curr_ensm_state := target } })
  else if target = ENSM_STATE_FDD then
    let val := { val with forceTx := true, forceRx := true }
    let rc : Int := if !d.phy.fdd then -EINVAL else 0
    if rc ≠ 0 then (rc, d0)
    else (0, { d0 with hw := writeEnsmConfig d0.hw val,
                       phy := { d0.phy with curr_ensm_state := target } })
  else if target = ENSM_STATE_ALERT then
    let val := { val with forceTx := false, forceRx := false,
                          toAlert := true, forceAlert := true }
    (0, { d0 with hw := writeEnsmConfig d0.hw val,
                  phy := { d0.phy with curr_ensm_state := target } })
  else if target = ENSM_STATE_SLEEP_WAIT then
    (0, { d0 with hw := writeEnsmConfig d0.hw val,
                  phy := { d0.phy with curr_ensm_state := target } })
  else if target = ENSM_STATE_SLEEP then
    let hw1 := writeEnsmConfig d0.hw cfgZero
    let hw2 := writeEnsmConfig hw1
      (if d.phy.fdd then { cfgZero with forceTx := true }
       else { cfgZero with forceRx := true })
    let hw3 := writeEnsmConfig hw2 cfgZero
    let hw4 := { hw3 with clocksOn := false }
    (0, { d0 with hw := hw4, phy := { d0.phy with curr_ensm_state := target } })
  else
    (0, d0)

/-- The force/restore bracket used by the calibration orchestrator. -/
def ensmRoundtrip (d : Dev) : Dev :=
  ad9361_ensm_restore_prev_state (ad9361_ensm_force_state d ENSM_STATE_ALERT)

/-- Claim C2 (amended): forcing ALERT and then restoring returns the
controller to the starting state S and preserves the pin-control enable
bit, for S among TX, RX and FDD; for S = ALERT this holds provided the
recorded pin-control flag agrees with the hardware bit (the force call
no-ops there without snapshotting pin control); for the wait and flush
states the restore refuses the snapshot and the controller stays in
ALERT. -/
theorem ensm_force_restore_roundtrip (d : Dev)
    (h : d.hw.state = ENSM_STATE_TX ∨ d.hw.state = ENSM_STATE_RX ∨
         d.hw.state = ENSM_STATE_FDD ∨
         (d.hw.state = ENSM_STATE_ALERT ∧ d.phy.ensm_pin_ctl_en = d.hw.cfg.pinCtl)) :
    (ensmRoundtrip d).hw.state = d.hw.state ∧
    (ensmRoundtrip d).hw.cfg.pinCtl = d.hw.cfg.pinCtl := by
  rcases h with h | h | h | ⟨h, hpin⟩
  · cases hpc : d.hw.cfg.pinCtl <;>
      simp [ensmRoundtrip, ad9361_ensm_force_state, ad9361_ensm_restore_prev_state,
        writeEnsmConfig, ensmApply, cfgBracket, h, hpc,
        ENSM_STATE_TX, ENSM_STATE_RX, ENSM_STATE_FDD, ENSM_STATE_ALERT]
  · cases hpc : d.hw.cfg.pinCtl <;>
      simp [ensmRoundtrip, ad9361_ensm_force_state, ad9361_ensm_restore_prev_state,
        writeEnsmConfig, ensmApply, cfgBracket, h, hpc,
        ENSM_STATE_TX, ENSM_STATE_RX, ENSM_STATE_FDD, ENSM_STATE_ALERT]
  · cases hpc : d.hw.cfg.pinCtl <;>
      simp [ensmRoundtrip, ad9361_ensm_force_state, ad9361_ensm_restore_prev_state,
        writeEnsmConfig, ensmApply, cfgBracket, h, hpc,
        ENSM_STATE_TX, ENSM_STATE_RX, ENSM_STATE_FDD, ENSM_STATE_ALERT]
  · cases hfl : d.phy.ensm_pin_ctl_en <;> rw [hfl] at hpin <;>
      simp [ensmRoundtrip, ad9361_ensm_force_state, ad9361_ensm_restore_prev_state,
        writeEnsmConfig, ensmApply, cfgBracket, h, hfl, hpin.symm,
        ENSM_STATE_TX, ENSM_STATE_RX, ENSM_STATE_FDD, ENSM_STATE_ALERT]

/-- Device used as witness for the force/restore round trip: TDD device
sitting in TX with pin control enabled. -/
def devRoundtripW : Dev :=
  { phy := ⟨ENSM_STATE_TX, ENSM_STATE_INVALID, false, false, true, false, false,
            true, true, true⟩,
    hw := ⟨ENSM_STATE_TX, ⟨true, true, false, true, false, false, false⟩, 0, true,
           true, true, true, true⟩ }

/-- Claim C2 witness: the round trip from the concrete TX state. -/
theorem ensm_force_restore_roundtrip_witness :
    (ensmRoundtrip devRoundtripW).hw.state = devRoundtripW.hw.state ∧
    (ensmRoundtrip devRoundtripW).hw.cfg.pinCtl = devRoundtripW.hw.cfg.pinCtl :=
  ensm_force_restore_roundtrip devRoundtripW (Or.inl (by decide))

/-- Device starting in the SLEEP_WAIT state with pin control enabled. -/
def devSleepWait : Dev :=
  { phy := ⟨ENSM_STATE_SLEEP_WAIT, ENSM_STATE_INVALID, false, false, true, false, false,
            true, true, true⟩,
    hw := ⟨ENSM_STATE_SLEEP_WAIT, ⟨true, true, false, false, false, false, false⟩, 0, true,
           false, false, false, false⟩ }

/-- Claim C2 counterexample: from the starting state SLEEP_WAIT the
restore refuses the snapshot, so the round trip leaves the controller in
ALERT rather than SLEEP_WAIT and leaves the pin-control enable cleared
although it was set before the force. -/
theorem ensm_force_restore_roundtrip_counterexample :
    devSleepWait.hw.state = ENSM_STATE_SLEEP_WAIT ∧
    devSleepWait.hw.cfg.pinCtl = true ∧
    (ensmRoundtrip devSleepWait).hw.state = ENSM_STATE_ALERT ∧
    ENSM_STATE_ALERT ≠ ENSM_STATE_SLEEP_WAIT ∧
    (ensmRoundtrip devSleepWait).hw.cfg.pinCtl = false := by
  refine ⟨rfl, rfl, ?_, by decide, ?_⟩ <;> decide

/-- Claim C1 (amended): for every guarded calibration run whose pre-call
hardware ENSM state is TX, RX, FDD or ALERT, whatever the dispatched
calibration step returns, the three tracking loops are re-enabled with
their saved prior configuration and the ENSM is back in the snapshotted
state when the call returns; for the wait and flush snapshot states the
tracking loops are still re-enabled but the restore refuses the snapshot
and the state machine is left in ALERT. -/
theorem do_calib_run_unwinds (d : Dev) (cal : Nat) (calRet : Int)
    (h : d.hw.state = ENSM_STATE_TX ∨ d.hw.state = ENSM_STATE_RX ∨
         d.hw.state = ENSM_STATE_FDD ∨ d.hw.state = ENSM_STATE_ALERT) :
    (ad9361_do_calib_run d cal calRet).2.hw.trackBB = d.phy.bbdc_track_en ∧
    (ad9361_do_calib_run d cal calRet).2.hw.trackRF = d.phy.rfdc_track_en ∧
    (ad9361_do_calib_run d cal calRet).2.hw.trackQ1 = d.phy.quad_track_en ∧
    (ad9361_do_calib_run d cal calRet).2.hw.state = d.hw.state := by
  rcases h with h | h | h | h <;>
    cases hpc : d.hw.cfg.pinCtl <;>
    cases hfl : d.phy.ensm_pin_ctl_en <;>
      simp [ad9361_do_calib_run, ad9361_tracking_control, ad9361_ensm_force_state,
        ad9361_ensm_restore_prev_state, writeEnsmConfig, ensmApply, cfgBracket,
        h, hpc, hfl, ETIMEDOUT,
        ENSM_STATE_TX, ENSM_STATE_RX, ENSM_STATE_FDD, ENSM_STATE_ALERT]

/-- Claim C1 witness: concrete guarded run from FDD whose calibration
step fails with a timeout. -/
theorem do_calib_run_unwinds_witness :
    (ad9361_do_calib_run
      { phy := ⟨ENSM_STATE_FDD, ENSM_STATE_INVALID, false, true, true, false, false,
                true, false, true⟩,
        hw := ⟨ENSM_STATE_FDD, ⟨true, true, false, true, false, false, false⟩, 0, true,
               false, false, false, false⟩ }
      TX_QUAD_CAL (-ETIMEDOUT)).2.hw.state = ENSM_STATE_FDD := by
  have h := do_calib_run_unwinds
    { phy := ⟨ENSM_STATE_FDD, ENSM_STATE_INVALID, false, true, true, false, false,
              true, false, true⟩,
      hw := ⟨ENSM_STATE_FDD, ⟨true, true, false, true, false, false, false⟩, 0, true,
             false, false, false, false⟩ }
    TX_QUAD_CAL (-ETIMEDOUT) (Or.inr (Or.inr (Or.inl (by decide))))
  exact h.2.2.2

/-- Device sitting in RX_FLUSH when a guarded calibration is started. -/
def devRxFlush : Dev :=
  { phy := ⟨ENSM_STATE_RX, ENSM_STATE_INVALID, false, false, true, false, false,
            true, true, true⟩,
    hw := ⟨ENSM_STATE_RX_FLUSH, ⟨false, true, false, false, false, false, false⟩, 0, true,
           false, false, false, false⟩ }

/-- Claim C1 counterexample: when the guarded run starts while the
hardware reads back RX_FLUSH, the restore refuses the snapshot and the
call returns with the state machine left in ALERT, not the snapshotted
state. -/
theorem do_calib_run_unwinds_counterexample :
    devRxFlush.hw.state = ENSM_STATE_RX_FLUSH ∧
    (ad9361_do_calib_run devRxFlush TX_QUAD_CAL (-ETIMEDOUT)).2.hw.state =
      ENSM_STATE_ALERT ∧
    ENSM_STATE_ALERT ≠ ENSM_STATE_RX_FLUSH := by
  refine ⟨rfl, ?_, by decide⟩
  decide

/-- Claim C6: the guarded runner never surfaces the dispatched
calibration result: the C code reassigns its return variable from the
tracking re-enable (which always returns 0) after the dispatch, so even
a timed-out calibration returns 0 to the caller. -/
theorem do_calib_run_masks_error (d : Dev) (cal : Nat) (calRet : Int) :
    (ad9361_do_calib_run d cal calRet).1 = 0 := by
  simp [ad9361_do_calib_run, ad9361_tracking_control]

/-- Claim C3: `ad9361_ensm_set_state` accepts TX and RX exactly when the
device is in half-duplex mode and the recorded state is ALERT, accepts
FDD exactly when the device is in full-duplex mode, and always accepts
ALERT with the forced TX/RX bits cleared in the committed configuration
value. -/
theorem ensm_set_state_legality (d : Dev) (pc : Bool) :
    ((ad9361_ensm_set_state d ENSM_STATE_TX pc).1 = 0 ↔
      (d.phy.fdd = false ∧ d.phy.curr_ensm_state = ENSM_STATE_ALERT)) ∧
    ((ad9361_ensm_set_state d ENSM_STATE_RX pc).1 = 0 ↔
      (d.phy.fdd = false ∧ d.phy.curr_ensm_state = ENSM_STATE_ALERT)) ∧
    ((ad9361_ensm_set_state d ENSM_STATE_FDD pc).1 = 0 ↔ d.phy.fdd = true) ∧
    ((ad9361_ensm_set_state d ENSM_STATE_ALERT pc).1 = 0 ∧
      (ad9361_ensm_set_state d ENSM_STATE_ALERT pc).2.hw.cfg.forceTx = false ∧
      (ad9361_ensm_set_state d ENSM_STATE_ALERT pc).2.hw.cfg.forceRx = false) := by
  cases hf : d.phy.fdd <;>
    by_cases ha : d.phy.curr_ensm_state = ENSM_STATE_ALERT <;>
    by_cases hs : d.phy.curr_ensm_state = ENSM_STATE_SLEEP <;>
    simp only [ENSM_STATE_ALERT, ENSM_STATE_SLEEP] at ha hs <;>
    first
    | omega
    | (simp only [ad9361_ensm_set_state, writeEnsmConfig, ensmApply, cfgBracket, cfgZero,
        EINVAL, ENSM_STATE_TX, ENSM_STATE_RX, ENSM_STATE_FDD, ENSM_STATE_ALERT,
        ENSM_STATE_SLEEP, ENSM_STATE_SLEEP_WAIT] <;>
      simp [hf, ha, hs])

/-- Claim C10 (amended): a rejected transition (TX or RX while in
full-duplex mode or while the recorded state is not ALERT, FDD while in
half-duplex mode) returns -EINVAL, never updates the recorded current
state, and leaves the whole device untouched provided the recorded state
is not SLEEP; from SLEEP the wake-up preamble (clock enable and a forced
ALERT configuration write) runs before the request is evaluated. -/
theorem ensm_set_state_reject_no_write (d : Dev) (target : Nat) (pc : Bool)
    (h : ((target = ENSM_STATE_TX ∨ target = ENSM_STATE_RX) ∧
            (d.phy.fdd = true ∨ d.phy.curr_ensm_state ≠ ENSM_STATE_ALERT)) ∨
         (target = ENSM_STATE_FDD ∧ d.phy.fdd = false)) :
    (ad9361_ensm_set_state d target pc).1 = -EINVAL ∧
    (ad9361_ensm_set_state d target pc).2.phy.curr_ensm_state =
      d.phy.curr_ensm_state ∧
    (d.phy.curr_ensm_state ≠ ENSM_STATE_SLEEP →
      (ad9361_ensm_set_state d target pc).2 = d) := by
  rcases h with ⟨ht, hc⟩ | ⟨ht, hc⟩
  · rcases ht with ht | ht <;> subst ht <;>
      simp only [ENSM_STATE_ALERT] at hc <;>
      cases hf : d.phy.fdd <;>
      by_cases ha : d.phy.curr_ensm_state = 5 <;>
      by_cases hs : d.phy.curr_ensm_state = 128 <;>
      first
      | omega
      | (exfalso
         rcases hc with hc | hc
         · rw [hf] at hc; simp at hc
         · exact hc ha)
      | (simp only [ad9361_ensm_set_state, writeEnsmConfig, ensmApply, cfgBracket,
          EINVAL, ENSM_STATE_TX, ENSM_STATE_RX, ENSM_STATE_FDD, ENSM_STATE_ALERT,
          ENSM_STATE_SLEEP, ENSM_STATE_SLEEP_WAIT] <;>
        simp [hf, ha, hs])
  · subst ht
    by_cases hs : d.phy.curr_ensm_state = 128 <;>
      simp only [ad9361_ensm_set_state, writeEnsmConfig, ensmApply, cfgBracket,
        EINVAL, ENSM_STATE_TX, ENSM_STATE_RX, ENSM_STATE_FDD, ENSM_STATE_ALERT,
        ENSM_STATE_SLEEP, ENSM_STATE_SLEEP_WAIT] <;>
      simp [hc, hs]

/-- Full-duplex device in ALERT used as witness for the rejection
path. -/
def devFddAlert : Dev :=
  { phy := ⟨ENSM_STATE_ALERT, ENSM_STATE_INVALID, false, true, true, false, false,
            true, true, true⟩,
    hw := ⟨ENSM_STATE_ALERT, ⟨false, true, true, true, false, false, false⟩, 0, true,
           true, true, true, true⟩ }

/-- Claim C10 witness: requesting TX on a full-duplex device is rejected
with -EINVAL and the device value is bit-for-bit unchanged. -/
theorem ensm_set_state_reject_no_write_witness :
    (ad9361_ensm_set_state devFddAlert ENSM_STATE_TX false).1 = -EINVAL ∧
    (ad9361_ensm_set_state devFddAlert ENSM_STATE_TX false).2 = devFddAlert := by
  have h := ensm_set_state_reject_no_write devFddAlert ENSM_STATE_TX false
    (Or.inl ⟨Or.inl rfl, Or.inl (by decide)⟩)
  exact ⟨h.1, h.2.2 (by decide)⟩

/-- Half-duplex device whose recorded state is SLEEP. -/
def devAsleep : Dev :=
  { phy := ⟨ENSM_STATE_SLEEP, ENSM_STATE_INVALID, false, false, true, false, false,
            true, true, true⟩,
    hw := ⟨ENSM_STATE_SLEEP_WAIT, ⟨false, true, false, false, false, false, false⟩, 0,
           false, false, false, false, false⟩ }

/-- Claim C10 counterexample: a TX request from the recorded SLEEP state
is rejected (SLEEP is not ALERT), yet the wake-up preamble has already
written the ENSM configuration register (the write counter moved from 0
to 1) and enabled the clocks, so the observable state is not unchanged
on this rejected transition. -/
theorem ensm_set_state_reject_no_write_counterexample :
    (ad9361_ensm_set_state devAsleep ENSM_STATE_TX false).1 = -EINVAL ∧
    devAsleep.hw.cfgWrites = 0 ∧
    (ad9361_ensm_set_state devAsleep ENSM_STATE_TX false).2.hw.cfgWrites = 1 ∧
    (1 : Nat) ≠ 0 := by
  refine ⟨?_, rfl, ?_, by decide⟩ <;> decide

/-! ### RF clock-chain planner: `ad9361_calculate_rf_clock_chain`

The divider table is in the source; the ADC/DAC/BBPLL limits come from
the missing ad9361.h header (modelled from the spec: the hardware ADC
range and BBPLL range).  The clock products clktf, clkrf and the
per-level ADC/DAC rates are computed in uint32 in the C and can wrap for
large FIR factors, so every such product is reduced modulo 2^32; the
BBPLL product is computed in uint64 in the C and its value at loop exit
is below 2^32, so it needs no reduction.  The recursive governor retry
is embedded with an explicit fuel of 8, which exactly covers the
recursion depth (levels rate_gov .. 7). -/

def U32 : Nat := 4294967296

def MAX_ADC_CLK : Nat := 640000000
def MIN_ADC_CLK : Nat := 40000000
def MAX_DAC_CLK : Nat := 320000000
def MAX_BBPLL_FREQ : Nat := 1430000000
def MAX_BBPLL_DIV : Nat := 64
def MIN_BBPLL_DIV : Nat := 2

/-- The seven divider tuples (outer multiplier, then three stage
divisors) from the source. -/
def clk_dividers : List (Nat × Nat × Nat × Nat) :=
  [(12, 3, 2, 2), (8, 2, 2, 2), (6, 3, 1, 2), (4, 2, 2, 1),
   (3, 3, 1, 1), (2, 2, 1, 1), (1, 1, 1, 1)]

def divRow (i : Nat) : Nat × Nat × Nat × Nat := clk_dividers.getD i (1, 1, 1, 1)

/-- Planner-relevant device configuration. -/
structure PlanPhy where
  rx2tx2 : Bool
  rx_eq_2tx : Bool
  bypass_rx_fir : Bool
  bypass_tx_fir : Bool
  rx_fir_dec : Nat
  tx_fir_int : Nat
deriving DecidableEq

def rx_intdec (p : PlanPhy) : Nat := if p.bypass_rx_fir then 1 else p.rx_fir_dec

def tx_intdec (p : PlanPhy) : Nat := if p.bypass_tx_fir then 1 else p.tx_fir_int

def planClktf (p : PlanPhy) (tx_sample_rate : Nat) : Nat :=
  tx_sample_rate * tx_intdec p % U32

def planClkrf (p : PlanPhy) (tx_sample_rate : Nat) : Nat :=
  tx_sample_rate * rx_intdec p * (if p.rx_eq_2tx then 2 else 1) % U32

/-- Result of the divider-table scan: the chosen table indexes (as
integers, since the TX index arithmetic can leave the table) and the
ADC/DAC rates at the break point. -/
structure SearchHit where
  index_rx : Int
  index_tx : Int
  adc_rate : Nat
  dac_rate : Nat
deriving DecidableEq

/-- The `for (i = rate_gov; i < 7; i++)` scan: break at the first tuple
whose ADC rate (a uint32 product, reduced modulo 2^32) is inside the
legal range and compute the TX index per the RX/TX ratio; fuel 8 covers
every start index. -/
def searchGo (clkrf clktf : Nat) : Nat → Nat → Option SearchHit
  | 0, _ => none
  | fuel + 1, i =>
    if i < 7 then
      let d0 := (divRow i).1
      let adc := clkrf * d0 % U32
      let dac := clktf * d0 % U32
      if MIN_ADC_CLK ≤ adc ∧ adc ≤ MAX_ADC_CLK then
        let tmp : Int := if adc < dac then -(Int.ofNat (dac / adc)) else Int.ofNat (adc / dac)
        if adc ≤ MAX_DAC_CLK then
          some ⟨i, (i : Int) - (if tmp = 1 then 0 else tmp), adc, adc⟩
        else if i = 4 ∧ 0 ≤ tmp then
          some ⟨i, 7, adc, adc / 2⟩
        else
          some ⟨i, (i : Int) + (if i = 5 ∧ 0 ≤ tmp then 1 else 2) -
                    (if tmp = 1 then 0 else tmp), adc, adc / 2⟩
      else searchGo clkrf clktf fuel (i + 1)
    else none

def ad9361_divider_search (clkrf clktf gov : Nat) : Option SearchHit :=
  searchGo clkrf clktf 8 gov

/-- A governor level fails when the scan finds nothing or the computed
index pair leaves the table. -/
def levelBad (p : PlanPhy) (tx_sample_rate gov : Nat) : Bool :=
  match ad9361_divider_search (planClkrf p tx_sample_rate) (planClktf p tx_sample_rate) gov with
  | none => true
  | some hit =>
      !(0 ≤ hit.index_tx && hit.index_tx ≤ 6 && 0 ≤ hit.index_rx && hit.index_rx ≤ 6)

/-- The BBPLL target search: start from the maximum divider and halve
until the PLL frequency is legal; the do/while runs at divider values
64, 32, ..., 2 at most, so fuel 7 is exact. -/
def bbloopGo (adc : Nat) : Nat → Nat → Nat
  | 0, div => adc * div
  | fuel + 1, div =>
    let b := adc * div
    let d := div / 2
    if MAX_BBPLL_FREQ < b ∧ MIN_BBPLL_DIV ≤ d then bbloopGo adc fuel d else b

def bbpll_target (adc : Nat) : Nat := bbloopGo adc 7 MAX_BBPLL_DIV

/-- The committed six-stage rate assignment of both paths. -/
structure RfChains where
  bbpll : Nat
  adc : Nat
  r2 : Nat
  r1 : Nat
  clkrf : Nat
  rx_sampl : Nat
  dac : Nat
  t2 : Nat
  t1 : Nat
  clktf : Nat
  tx_sampl : Nat
deriving DecidableEq

def buildChains (p : PlanPhy) (adc dac irx itx : Nat) : RfChains :=
  let rowR := divRow irx
  let rowT := divRow itx
  let r2 := adc / rowR.2.1
  let r1 := r2 / rowR.2.2.1
  let ckr := r1 / rowR.2.2.2
  let t2 := dac / rowT.2.1
  let t1 := t2 / rowT.2.2.1
  let ckt := t1 / rowT.2.2.2
  { bbpll := bbpll_target adc,
    adc := adc, r2 := r2, r1 := r1, clkrf := ckr, rx_sampl := ckr / rx_intdec p,
    dac := dac, t2 := t2, t1 := t1, clktf := ckt, tx_sampl := ckt / tx_intdec p }

/-- Governor retry loop of `ad9361_calculate_rf_clock_chain`: on an
invalid index pair retry with governor + 1 while the governor is below
7, otherwise fail; fuel 8 exactly covers the recursion depth. -/
def planGo (p : PlanPhy) (tx_sample_rate : Nat) : Nat → Nat → Except Int RfChains
  | 0, _ => .error (-EINVAL)
  | fuel + 1, gov =>
    match ad9361_divider_search (planClkrf p tx_sample_rate) (planClktf p tx_sample_rate) gov with
    | some hit =>
        if 0 ≤ hit.index_tx ∧ hit.index_tx ≤ 6 ∧ 0 ≤ hit.index_rx ∧ hit.index_rx ≤ 6 then
          .ok (buildChains p hit.adc_rate hit.dac_rate hit.index_rx.toNat hit.index_tx.toNat)
        else if gov < 7 then planGo p tx_sample_rate fuel (gov + 1)
        else .error (-EINVAL)
    | none => if gov < 7 then planGo p tx_sample_rate fuel (gov + 1) else .error (-EINVAL)

/-- Embedding of `ad9361_calculate_rf_clock_chain`: immediate invalid
argument above the duplex-dependent ceiling, then the two-level
search. -/
def ad9361_calculate_rf_clock_chain (p : PlanPhy) (tx_sample_rate gov : Nat) :
    Except Int RfChains :=
  if (if p.rx2tx2 then 61440000 else 122880000) < tx_sample_rate then .error (-EINVAL)
  else planGo p tx_sample_rate 8 gov

theorem searchGo_high (clkrf clktf : Nat) :
    ∀ fuel i, 7 ≤ i → searchGo clkrf clktf fuel i = none := by
  intro fuel
  cases fuel with
  | zero => intro i _; rfl
  | succ fuel =>
    intro i h
    unfold searchGo
    rw [if_neg (by omega)]

theorem planGo_allBad (p : PlanPhy) (rate : Nat) :
    ∀ fuel gov, 8 - gov ≤ fuel →
    (∀ g, gov ≤ g → g ≤ 6 → levelBad p rate g = true) →
    planGo p rate fuel gov = .error (-EINVAL) := by
  intro fuel
  induction fuel with
  | zero => intro gov h1 h2; rfl
  | succ fuel ih =>
    intro gov h1 h2
    by_cases hg : gov < 7
    · have hbad := h2 gov (le_refl gov) (by omega)
      unfold planGo
      rcases hh : ad9361_divider_search (planClkrf p rate) (planClktf p rate) gov with _ | hit
      · simp only [hg, if_true]
        exact ih (gov + 1) (by omega) (fun g hg1 hg2 => h2 g (by omega) hg2)
      · have hnot : ¬(0 ≤ hit.index_tx ∧ hit.index_tx ≤ 6 ∧
            0 ≤ hit.index_rx ∧ hit.index_rx ≤ 6) := by
          intro hcon
          simp [levelBad, hh, hcon.1, hcon.2.1, hcon.2.2.1, hcon.2.2.2] at hbad
        simp only [hnot, if_false, hg, if_true]
        exact ih (gov + 1) (by omega) (fun g hg1 hg2 => h2 g (by omega) hg2)
    · have hs : ad9361_divider_search (planClkrf p rate) (planClktf p rate) gov = none :=
        searchGo_high _ _ 8 gov (by omega)
      unfold planGo
      simp [hs, hg]

/-- Claim C4: the planner rejects any requested rate above the
duplex-dependent ceiling immediately with the invalid-argument error
(independent of governors and divider search), and when every governor
level from the requested one through 6 fails to produce a legal index
pair with the ADC rate in range, the governor retry runs off the table
and the planner fails with the no-solution error. -/
theorem calculate_rf_clock_chain_errors (p : PlanPhy) (rate gov : Nat) :
    ((if p.rx2tx2 then 61440000 else 122880000) < rate →
      ad9361_calculate_rf_clock_chain p rate gov = .error (-EINVAL)) ∧
    ((∀ g, gov ≤ g → g ≤ 6 → levelBad p rate g = true) →
      ad9361_calculate_rf_clock_chain p rate gov = .error (-EINVAL)) := by
  constructor
  · intro h
    unfold ad9361_calculate_rf_clock_chain
    rw [if_pos h]
  · intro h
    unfold ad9361_calculate_rf_clock_chain
    by_cases hc : (if p.rx2tx2 then 61440000 else 122880000) < rate
    · rw [if_pos hc]
    · rw [if_neg hc]
      exact planGo_allBad p rate 8 gov (by omega) h

/-- Dual-channel device with both FIRs bypassed, used for the planner
witnesses. -/
def planDev : PlanPhy :=
  { rx2tx2 := true, rx_eq_2tx := false, bypass_rx_fir := true, bypass_tx_fir := true,
    rx_fir_dec := 4, tx_fir_int := 2 }

/-- Claim C4 witness: one hertz above the dual-channel ceiling is
rejected immediately, and a 1 kHz request leaves every divider product
below the minimum ADC rate so every governor level fails. -/
theorem calculate_rf_clock_chain_errors_witness :
    ad9361_calculate_rf_clock_chain planDev 61440001 0 = .error (-EINVAL) ∧
    ad9361_calculate_rf_clock_chain planDev 1000 0 = .error (-EINVAL) := by
  refine ⟨(calculate_rf_clock_chain_errors planDev 61440001 0).1 (by decide),
          (calculate_rf_clock_chain_errors planDev 1000 0).2 ?_⟩
  intro g h1 h2
  interval_cases g <;> decide

/-- Dual-channel device in RX-equals-2x-TX sample-rate mode with both
FIRs bypassed. -/
def planDevRxEq2Tx : PlanPhy :=
  { rx2tx2 := true, rx_eq_2tx := true, bypass_rx_fir := true, bypass_tx_fir := true,
    rx_fir_dec := 4, tx_fir_int := 2 }

/-- The chains the planner commits for 61.44 MHz at governor 0 in
RX-equals-2x-TX mode. -/
def chainsRxEq2Tx : RfChains :=
  { bbpll := 983040000, adc := 491520000, r2 := 245760000, r1 := 122880000,
    clkrf := 122880000, rx_sampl := 122880000,
    dac := 245760000, t2 := 122880000, t1 := 61440000, clktf := 61440000,
    tx_sampl := 61440000 }

/-- Claim C8 (amended): for tx_sample_rate 61.44 MHz at governor 0 with
the RX-equals-2x-TX mode enabled (both FIRs bypassed), the planner
succeeds with an ADC rate inside the legal range, and the final RX
sample rate is twice the final TX sample rate: the mode doubles the RX
chain relative to the TX chain. -/
theorem calculate_rf_clock_chain_61m44 :
    ad9361_calculate_rf_clock_chain planDevRxEq2Tx 61440000 0 = .ok chainsRxEq2Tx ∧
    chainsRxEq2Tx.rx_sampl = 2 * chainsRxEq2Tx.tx_sampl ∧
    MIN_ADC_CLK ≤ chainsRxEq2Tx.adc ∧ chainsRxEq2Tx.adc ≤ MAX_ADC_CLK := by
  refine ⟨rfl, rfl, by decide, by decide⟩

/-- Claim C8 counterexample: in the RX-equals-2x-TX mode the two final
sample rates are not equal: the committed RX sample rate is 122.88 MHz
against a TX sample rate of 61.44 MHz. -/
theorem calculate_rf_clock_chain_61m44_counterexample :
    ad9361_calculate_rf_clock_chain planDevRxEq2Tx 61440000 0 = .ok chainsRxEq2Tx ∧
    chainsRxEq2Tx.rx_sampl ≠ chainsRxEq2Tx.tx_sampl := by
  refine ⟨rfl, by decide⟩
